import Mathlib

/-!
# Verification of the test-selection feature pipeline

Shallow embedding of `src/cron/process_data.py` (and the pure core of its
`main`).  Dates are modelled as integers counting days: the Python code only
ever subtracts whole-day `timedelta`s from `datetime` values and compares the
results, so an `Int` with unit "day" captures all the arithmetic used.
Python dictionaries keyed by insertion order are modelled as structures plus
an explicit key-ordered serialization (`toPairs`).  Strings are split into
components of type `List Char`, with list equality standing for Python
string equality.
-/

namespace TestSelection

/-- Python `str.split`/`re.split` on a character class: splits the character
list at every character satisfying `p`, keeping empty components (so the
result is always non-empty, and splitting the empty string yields `[[]]`,
matching Python's `"".split(sep) == [""]`). -/
def splitCharsOn (p : Char → Bool) : List Char → List (List Char)
  | [] => [[]]
  | c :: cs =>
    match splitCharsOn p cs with
    | [] => [[c]]
    | r :: rs => if p c then [] :: r :: rs else (c :: r) :: rs

/-- `path.split("/")` from the Python code, on the character level. -/
def pySplitSlash (s : String) : List (List Char) :=
  splitCharsOn (fun c => c == '/') s.toList

/-- The prefix-credit loop of `calculate_minimal_distance`:
`for i in range(fuel): if a[i] == b[i]: distance -= 2 else: break`.
Returns the total credit subtracted (2 per matching leading component),
scanning at most `fuel` positions and stopping at the first mismatch. -/
def prefixCredit : Nat → List (List Char) → List (List Char) → Int
  | 0, _, _ => 0
  | _ + 1, [], _ => 0
  | _ + 1, _ :: _, [] => 0
  | n + 1, a :: as, b :: bs => if a = b then 2 + prefixCredit n as bs else 0

/-- Body of the per-entry loop in `calculate_minimal_distance`: given the two
split paths, `len(changed) + len(test)` minus the prefix credit, with the
scan bounded by `min(len(changed) - 1, len(test) - 1)`. -/
def distanceForPath (changedSplits testSplits : List (List Char)) : Int :=
  (changedSplits.length : Int) + testSplits.length -
    prefixCredit (min (changedSplits.length - 1) (testSplits.length - 1))
      changedSplits testSplits

/-- The Python function's first parameter is either a single path string or a
collection of `{"filename": ...}` entries; we keep just the filenames. -/
inductive ChangedFileInput where
  | str (s : String)
  | entries (l : List String)
deriving DecidableEq

/-- Python truthiness test `not changed_file_path`: an empty string and an
empty collection are falsy. -/
def ChangedFileInput.isFalsy : ChangedFileInput → Bool
  | .str s => s == ""
  | .entries l => l.isEmpty

/-- `calculate_minimal_distance` from `src/cron/process_data.py`.
Returns 1000 for falsy inputs; otherwise folds `min` starting from 1000 over
the per-entry distances (a single string is wrapped as a one-entry list). -/
def calculate_minimal_distance (changed_file_path : ChangedFileInput)
    (test_file_path : String) : Int :=
  if changed_file_path.isFalsy || test_file_path == "" then 1000
  else
    let test_file_path_splits := pySplitSlash test_file_path
    let changed_files : List String :=
      match changed_file_path with
      | .str s => [s]
      | .entries l => l
    changed_files.foldl
      (fun min_distance p =>
        min min_distance (distanceForPath (pySplitSlash p) test_file_path_splits))
      1000

/-- `calculate_common_tokens` from `src/cron/process_data.py`: token sets are
obtained by `re.split(r"[/.]", path)` with empty tokens discarded. -/
def tokensOf (s : String) : Finset (List Char) :=
  ((splitCharsOn (fun c => c == '/' || c == '.') s.toList).filter
    (fun t => t ≠ [])).toFinset

/-- `calculate_common_tokens(changed_file_path, test_file_path)`. -/
def calculate_common_tokens (changed_file_path test_file_path : String) : Nat :=
  if changed_file_path == "" || test_file_path == "" then 0
  else (tokensOf changed_file_path ∩ tokensOf test_file_path).card

example : calculate_minimal_distance (.str "a/b/c.py") "a/b/test_c.py" = 2 := by decide
example : calculate_minimal_distance (.str "a") "a" = 2 := by decide
example : calculate_common_tokens "a/b/c.py" "a/b_c.py" = 2 := by decide

/-- `os.path.rfind`-style helper: the index of the last character satisfying
`p`, or `-1` when there is none (CPython's `str.rfind` convention used by
`posixpath.splitext`). -/
def rfindIdx (p : Char → Bool) : List Char → Int
  | [] => -1
  | c :: cs =>
    let r := rfindIdx p cs
    if r ≥ 0 then r + 1 else if p c then 0 else -1

/-- `os.path.splitext` (POSIX flavour), as called by `process_file_change`:
splits at the last `'.'` that lies after the last `'/'`, unless every
character of the basename before that dot is itself a dot (so dotfiles such
as `".gitignore"` keep an empty extension). -/
def splitext (path : String) : String × String :=
  let s := path.toList
  let sepIndex := rfindIdx (fun c => c == '/') s
  let dotIndex := rfindIdx (fun c => c == '.') s
  if dotIndex > sepIndex then
    -- the while-loop of genericpath._splitext: skip leading dots of the
    -- basename; split only if some non-dot character precedes the last dot
    let basenameBeforeDot :=
      (s.drop (sepIndex + 1).toNat).take (dotIndex - (sepIndex + 1)).toNat
    if basenameBeforeDot.any (fun c => c ≠ '.') then
      (String.mk (s.take dotIndex.toNat), String.mk (s.drop dotIndex.toNat))
    else (path, "")
  else (path, "")

/-! ## Feature Synthesizer -/

/-- The dict built by `process_test_run`, field order as in the source. -/
structure TestRunFeatures where
  test_case_file_path : String
  test_case_name : String
  actual_result : Nat
  failures_7_days : Nat
  failures_14_days : Nat
  failures_28_days : Nat
deriving DecidableEq, Repr

/-- Raw test-run attributes consumed by `process_test_run` (the sub-dict
built in `process_data_for_repo`). -/
structure TestRunInput where
  test_case_file_path : String
  test_case_name : String
  actual_result : String
deriving DecidableEq, Repr

/-- One iteration of the failure-window loop in `process_test_run`: the three
independent `if failed_date > pr_creation_date - timedelta(days=w)` counter
increments. -/
def testRunStep (pr_creation_date : Int) (data : TestRunFeatures)
    (failed_date : Int) : TestRunFeatures :=
  let data :=
    if failed_date > pr_creation_date - 7 then
      { data with failures_7_days := data.failures_7_days + 1 }
    else data
  let data :=
    if failed_date > pr_creation_date - 14 then
      { data with failures_14_days := data.failures_14_days + 1 }
    else data
  if failed_date > pr_creation_date - 28 then
    { data with failures_28_days := data.failures_28_days + 1 }
  else data

/-- `process_test_run` from `src/cron/process_data.py`. -/
def process_test_run (test_run : TestRunInput) (pr_creation_date : Int)
    (failed_run_dates : List Int) : TestRunFeatures :=
  let data : TestRunFeatures :=
    { test_case_file_path := test_run.test_case_file_path
      test_case_name := test_run.test_case_name
      actual_result := if test_run.actual_result == "passed" then 0 else 1
      failures_7_days := 0
      failures_14_days := 0
      failures_28_days := 0 }
  failed_run_dates.foldl (testRunStep pr_creation_date) data

/-- The dict built by `process_file_change`, field order as in the source. -/
structure FileChangeFeatures where
  file_name : String
  file_extension : String
  changes_3_days : Nat
  changes_14_days : Nat
deriving DecidableEq, Repr

/-- One iteration of the change-window loop in `process_file_change`: the two
`if change_date >= pr_creation_date - timedelta(days=w)` counter
increments. -/
def fileChangeStep (pr_creation_date : Int) (data : FileChangeFeatures)
    (change_date : Int) : FileChangeFeatures :=
  let data :=
    if change_date ≥ pr_creation_date - 3 then
      { data with changes_3_days := data.changes_3_days + 1 }
    else data
  if change_date ≥ pr_creation_date - 14 then
    { data with changes_14_days := data.changes_14_days + 1 }
  else data

/-- `process_file_change` from `src/cron/process_data.py`;
`file_extension[1:] if file_extension else ""` drops the leading dot. -/
def process_file_change (file_change_path : String) (pr_creation_date : Int)
    (file_change_dates : List Int) : FileChangeFeatures :=
  let fe := splitext file_change_path
  let data : FileChangeFeatures :=
    { file_name := fe.1
      file_extension := if fe.2 ≠ "" then fe.2.drop 1 else ""
      changes_3_days := 0
      changes_14_days := 0 }
  file_change_dates.foldl (fileChangeStep pr_creation_date) data

example : splitext "a/b/c.py" = ("a/b/c", ".py") := by decide
example : splitext "a/.gitignore" = ("a/.gitignore", "") := by decide
example :
    process_test_run ⟨"t.py", "n", "failed"⟩ 100 [99, 90, 80, 70] =
      ⟨"t.py", "n", 1, 1, 2, 3⟩ := by decide
example :
    process_file_change "a/b/c.py" 100 [99, 97, 90, 86, 80] =
      ⟨"a/b/c", "py", 2, 4⟩ := by decide

/-! ## History Aggregator and Pair Expander

`process_data_for_repo` first fetches three row sets from storage; the SQL
queries are embedded as filters over in-memory tables, and everything after
the fetches is translated statement by statement. -/

/-- A row of `repo_pr_details`.  `list_of_authors` may be NULL in storage;
Python's `len(x) if x else 0` maps both NULL and the empty list to 0, so an
absent list is modelled as `[]`. -/
structure PRDetail where
  pr_link : String
  repo_name : String
  date_of_pr : Int
  list_of_authors : List String
deriving DecidableEq, Repr

/-- A row of `pr_to_files_changed_mapping` (one changed path per row). -/
structure FileChangedRow where
  pr_link : String
  files_paths_changed : String
deriving DecidableEq, Repr

/-- A row of `pr_to_test_runs_mapping`. -/
structure TestRunRow where
  pr_link : String
  test_case_file_path : String
  test_case_name : String
  actual_result : String
deriving DecidableEq, Repr

/-- `get_test_run_key` from the source. -/
def get_test_run_key (test_case_file_path test_case_name : String) : String :=
  test_case_file_path ++ "::::" ++ test_case_name

/-- `next((pr["date_of_pr"] for pr in pull_request_details if pr["pr_link"] ==
link), None)`: the date of the first fetched PR with the given link. -/
def lookupPRDate (pull_request_details : List PRDetail) (link : String) :
    Option Int :=
  (pull_request_details.find? (fun pr => pr.pr_link == link)).map
    (fun pr => pr.date_of_pr)

/-- The `files_changed_history` index as a lookup function: for a path, the
dates appended to its bucket (in row order; a row whose PR link resolves to
no date contributes nothing — `if changed_date:` is always true for a found
`datetime` and false for `None`).  `.get(path, [])` makes a missing key and
an empty bucket indistinguishable. -/
def files_changed_history (pull_request_details : List PRDetail)
    (pr_files_changed_data : List FileChangedRow) (path : String) : List Int :=
  (pr_files_changed_data.filter
    (fun row => row.files_paths_changed == path)).filterMap
    (fun row => lookupPRDate pull_request_details row.pr_link)

/-- The `test_runs_failure_history` index as a lookup function: for a
test-case key, the PR dates of its rows with `actual_result == "failed"`. -/
def test_runs_failure_history (pull_request_details : List PRDetail)
    (pr_test_runs_data : List TestRunRow) (key : String) : List Int :=
  (pr_test_runs_data.filter
    (fun row =>
      get_test_run_key row.test_case_file_path row.test_case_name == key &&
        row.actual_result == "failed")).filterMap
    (fun row => lookupPRDate pull_request_details row.pr_link)

/-- One output record of the Pair Expander, fields in the insertion order of
the merged dict `{**test_run, **file_change, "distinct_author": ..., ...}`. -/
structure FeatureRow where
  test_case_file_path : String
  test_case_name : String
  actual_result : Nat
  failures_7_days : Nat
  failures_14_days : Nat
  failures_28_days : Nat
  file_name : String
  file_extension : String
  changes_3_days : Nat
  changes_14_days : Nat
  distinct_author : Nat
  common_tokens : Nat
  minimal_distance : Int
  num_files_changed : Nat
  date_of_pr : Int
  pr_link : String
deriving DecidableEq, Repr

/-- The dict built for one (test run, file change) pair.  `date_of_pr` is
stored as the PR date itself; the Python code formats it with `strftime`,
pure presentation.  `distinct_author = len(list_of_authors) if truthy else
0`, and `len [] = 0`, so plain `length` is faithful. -/
def mkFeatureRow (test_run : TestRunFeatures) (file_change : FileChangeFeatures)
    (pr : PRDetail) (num_files_changed : Nat) : FeatureRow :=
  { test_case_file_path := test_run.test_case_file_path
    test_case_name := test_run.test_case_name
    actual_result := test_run.actual_result
    failures_7_days := test_run.failures_7_days
    failures_14_days := test_run.failures_14_days
    failures_28_days := test_run.failures_28_days
    file_name := file_change.file_name
    file_extension := file_change.file_extension
    changes_3_days := file_change.changes_3_days
    changes_14_days := file_change.changes_14_days
    distinct_author := pr.list_of_authors.length
    common_tokens :=
      calculate_common_tokens test_run.test_case_file_path file_change.file_name
    minimal_distance :=
      calculate_minimal_distance (.str test_run.test_case_file_path)
        file_change.file_name
    num_files_changed := num_files_changed
    date_of_pr := pr.date_of_pr
    pr_link := pr.pr_link }

/-- The body of the per-PR loop of `process_data_for_repo`: synthesize the
PR's test-run and file-change feature records and emit the
`itertools.product` of the two lists. -/
def rowsForPR (pull_request_details : List PRDetail)
    (pr_files_changed_data : List FileChangedRow)
    (pr_test_runs_data : List TestRunRow) (pr : PRDetail) : List FeatureRow :=
  let pr_files_changed :=
    (pr_files_changed_data.filter (fun row => row.pr_link == pr.pr_link)).map
      (fun row => row.files_paths_changed)
  let num_files_changed := pr_files_changed.length
  let pr_test_runs : List TestRunInput :=
    (pr_test_runs_data.filter (fun row => row.pr_link == pr.pr_link)).map
      (fun row =>
        ⟨row.test_case_file_path, row.test_case_name, row.actual_result⟩)
  let processed_test_runs :=
    pr_test_runs.map (fun test_run =>
      process_test_run test_run pr.date_of_pr
        (test_runs_failure_history pull_request_details pr_test_runs_data
          (get_test_run_key test_run.test_case_file_path
            test_run.test_case_name)))
  let processed_file_changes :=
    pr_files_changed.map (fun file_change =>
      process_file_change file_change pr.date_of_pr
        (files_changed_history pull_request_details pr_files_changed_data
          file_change))
  processed_test_runs.flatMap (fun test_run =>
    processed_file_changes.map (fun file_change =>
      mkFeatureRow test_run file_change pr num_files_changed))

/-- The accumulated `feature_data` list across all PRs of the repo. -/
def feature_data (pull_request_details : List PRDetail)
    (pr_files_changed_data : List FileChangedRow)
    (pr_test_runs_data : List TestRunRow) : List FeatureRow :=
  pull_request_details.flatMap
    (rowsForPR pull_request_details pr_files_changed_data pr_test_runs_data)

/-! ## Checkpoint Resolver and PR fetch -/

/-- `start_date = checkpoint_date - timedelta(days=28)`. -/
def startDate (checkpoint_date : Int) : Int := checkpoint_date - 28

/-- The two `SELECT ... FROM repo_pr_details` queries: with a checkpoint,
`WHERE repo_name = %s AND date_of_pr >= start_date`; without one, only the
repo filter (no date bound). -/
def fetchPullRequests (table : List PRDetail) (repo_name : String)
    (checkpoint_date : Option Int) : List PRDetail :=
  match checkpoint_date with
  | some cd =>
      table.filter (fun pr =>
        pr.repo_name == repo_name &&
          decide (pr.date_of_pr ≥ startDate cd))
  | none => table.filter (fun pr => pr.repo_name == repo_name)

/-- A row of `checkpoint_details`. -/
structure CheckpointRow where
  repo_name : String
  date_of_checkpoint : Int
deriving DecidableEq, Repr

/-- `SELECT MAX(date_of_checkpoint) ... WHERE repo_name = %s` followed by
`main`'s `result["max_checkpoint"] if result and result["max_checkpoint"]
else None`. -/
def latest_checkpoint (table : List CheckpointRow) (repo_name : String) :
    Option Int :=
  ((table.filter (fun row => row.repo_name == repo_name)).map
    (fun row => row.date_of_checkpoint)).max?

/-! ## CSV serialization and the repo pass result -/

/-- A cell of the CSV artifact (strings and the two numeric kinds that occur
in a `FeatureRow`). -/
inductive CellValue where
  | str (v : String)
  | nat (v : Nat)
  | int (v : Int)
deriving DecidableEq, Repr

/-- `FeatureRow` as the ordered key/value dict the Python code builds:
`{**test_run, **file_change, ...}` with the six dict-literal keys appended.
The two merged dicts have disjoint key sets, so merging preserves each
side's insertion order and drops nothing. -/
def FeatureRow.toPairs (r : FeatureRow) : List (String × CellValue) :=
  [("test_case_file_path", .str r.test_case_file_path),
   ("test_case_name", .str r.test_case_name),
   ("actual_result", .nat r.actual_result),
   ("failures_7_days", .nat r.failures_7_days),
   ("failures_14_days", .nat r.failures_14_days),
   ("failures_28_days", .nat r.failures_28_days),
   ("file_name", .str r.file_name),
   ("file_extension", .str r.file_extension),
   ("changes_3_days", .nat r.changes_3_days),
   ("changes_14_days", .nat r.changes_14_days),
   ("distinct_author", .nat r.distinct_author),
   ("common_tokens", .nat r.common_tokens),
   ("minimal_distance", .int r.minimal_distance),
   ("num_files_changed", .nat r.num_files_changed),
   ("date_of_pr", .int r.date_of_pr),
   ("pr_link", .str r.pr_link)]

/-- The written CSV: `fieldnames = list(feature_data[0].keys())`, then
`writeheader()` and one line per row.  `None` when `feature_data` is empty
(the `if feature_data:` guard skips the write). -/
def writtenCsv (rows : List FeatureRow) :
    Option (List String × List (List CellValue)) :=
  match rows with
  | [] => none
  | r :: _ =>
      some (r.toPairs.map Prod.fst,
        rows.map (fun row => row.toPairs.map Prod.snd))

/-- The observable outcome of one `process_data_for_repo` call, given the
fetched row sets: the value returned to `main` and the CSV written (if
any).  The early `return None` fires only when no PR rows were fetched;
otherwise `output_file` is returned unconditionally, whether or not the
`if feature_data:` block wrote it. -/
structure RepoPassResult where
  returned : Option String
  written : Option (List String × List (List CellValue))
deriving DecidableEq, Repr

/-- `process_data_for_repo` after the fetches (`timestamp` abstracts
`datetime.now().strftime(...)`). -/
def process_data_for_repo (repo_name timestamp : String)
    (pull_request_details : List PRDetail)
    (pr_files_changed_data : List FileChangedRow)
    (pr_test_runs_data : List TestRunRow) : RepoPassResult :=
  if pull_request_details.isEmpty then ⟨none, none⟩
  else
    let fd :=
      feature_data pull_request_details pr_files_changed_data pr_test_runs_data
    ⟨some ("csv/" ++ repo_name ++ "_" ++ timestamp ++ ".csv"), writtenCsv fd⟩

/-- `main`'s per-repo step after `process_data_for_repo`:
`if processed_data_path: train_model(...)`.  The returned path is a
non-empty string whenever it is not `None`, so Python truthiness is
`isSome`. -/
def trainer_invoked (result : RepoPassResult) : Bool :=
  result.returned.isSome

/-! ## Window-counting lemmas -/

lemma foldl_testRunStep (d : Int) (dates : List Int) (init : TestRunFeatures) :
    dates.foldl (testRunStep d) init =
      { init with
        failures_7_days :=
          init.failures_7_days + dates.countP (fun x => decide (d - 7 < x))
        failures_14_days :=
          init.failures_14_days + dates.countP (fun x => decide (d - 14 < x))
        failures_28_days :=
          init.failures_28_days + dates.countP (fun x => decide (d - 28 < x)) } := by
  induction dates generalizing init with
  | nil => simp
  | cons a l ih =>
    rw [List.foldl_cons, ih]
    simp only [testRunStep, List.countP_cons]
    by_cases h7 : d - 7 < a <;> by_cases h14 : d - 14 < a <;>
      by_cases h28 : d - 28 < a <;>
        simp [h7, h14, h28] <;> omega

/-- `process_test_run` in closed form: the label from the run's own result
and one strict-boundary window count per horizon. -/
lemma process_test_run_eq (test_run : TestRunInput) (d : Int)
    (dates : List Int) :
    process_test_run test_run d dates =
      ⟨test_run.test_case_file_path, test_run.test_case_name,
        if test_run.actual_result == "passed" then 0 else 1,
        dates.countP (fun x => decide (d - 7 < x)),
        dates.countP (fun x => decide (d - 14 < x)),
        dates.countP (fun x => decide (d - 28 < x))⟩ := by
  simp [process_test_run, foldl_testRunStep]

lemma foldl_fileChangeStep (d : Int) (dates : List Int)
    (init : FileChangeFeatures) :
    dates.foldl (fileChangeStep d) init =
      { init with
        changes_3_days :=
          init.changes_3_days + dates.countP (fun x => decide (d - 3 ≤ x))
        changes_14_days :=
          init.changes_14_days + dates.countP (fun x => decide (d - 14 ≤ x)) } := by
  induction dates generalizing init with
  | nil => simp
  | cons a l ih =>
    rw [List.foldl_cons, ih]
    simp only [fileChangeStep, List.countP_cons]
    by_cases h3 : d - 3 ≤ a <;> by_cases h14 : d - 14 ≤ a <;>
      simp [h3, h14] <;> omega

/-- `process_file_change` in closed form: the splitext pair and one
inclusive-boundary window count per horizon. -/
lemma process_file_change_eq (path : String) (d : Int) (dates : List Int) :
    process_file_change path d dates =
      ⟨(splitext path).1,
        if (splitext path).2 ≠ "" then (splitext path).2.drop 1 else "",
        dates.countP (fun x => decide (d - 3 ≤ x)),
        dates.countP (fun x => decide (d - 14 ≤ x))⟩ := by
  simp [process_file_change, foldl_fileChangeStep]

/-- C1: for every test run, PR date and failure-date list,
`process_test_run` returns window counts equal to the number of failure
dates strictly greater than `pr_date` minus 7, 14 and 28 days; a failure
exactly on a window's boundary date is not counted in that window; and for
failure dates `[d-1, d-10, d-20, d-30]` the counts are 1, 2, 3. -/
theorem failure_windows_strict_counts (test_run : TestRunInput)
    (pr_date d : Int) (failure_dates : List Int) :
    (process_test_run test_run pr_date failure_dates).failures_7_days =
        failure_dates.countP (fun x => decide (pr_date - 7 < x)) ∧
      (process_test_run test_run pr_date failure_dates).failures_14_days =
        failure_dates.countP (fun x => decide (pr_date - 14 < x)) ∧
      (process_test_run test_run pr_date failure_dates).failures_28_days =
        failure_dates.countP (fun x => decide (pr_date - 28 < x)) ∧
      (process_test_run test_run pr_date [pr_date - 7]).failures_7_days = 0 ∧
      (process_test_run test_run pr_date [pr_date - 14]).failures_14_days = 0 ∧
      (process_test_run test_run pr_date [pr_date - 28]).failures_28_days = 0 ∧
      (process_test_run test_run d
        [d - 1, d - 10, d - 20, d - 30]).failures_7_days = 1 ∧
      (process_test_run test_run d
        [d - 1, d - 10, d - 20, d - 30]).failures_14_days = 2 ∧
      (process_test_run test_run d
        [d - 1, d - 10, d - 20, d - 30]).failures_28_days = 3 := by
  have h1 : (d : Int) - 7 < d - 1 := by omega
  have h2 : ¬((d : Int) - 7 < d - 10) := by omega
  have h3 : ¬((d : Int) - 7 < d - 20) := by omega
  have h4 : ¬((d : Int) - 7 < d - 30) := by omega
  have h5 : (d : Int) - 14 < d - 1 := by omega
  have h6 : (d : Int) - 14 < d - 10 := by omega
  have h7 : ¬((d : Int) - 14 < d - 20) := by omega
  have h8 : ¬((d : Int) - 14 < d - 30) := by omega
  have h9 : (d : Int) - 28 < d - 1 := by omega
  have h10 : (d : Int) - 28 < d - 10 := by omega
  have h11 : (d : Int) - 28 < d - 20 := by omega
  have h12 : ¬((d : Int) - 28 < d - 30) := by omega
  simp [process_test_run_eq, List.countP_cons,
    h1, h2, h3, h4, h5, h6, h7, h8, h9, h10, h11, h12]

/-- C2: for every file path, PR date and change-date list,
`process_file_change` returns window counts equal to the number of change
dates greater than or equal to `pr_date` minus 3 and 14 days; the boundary
is inclusive (asymmetric with the strict failure-count boundary): a change
exactly on the boundary date is counted. -/
theorem change_windows_inclusive_counts (path : String) (pr_date : Int)
    (change_dates : List Int) :
    (process_file_change path pr_date change_dates).changes_3_days =
        change_dates.countP (fun x => decide (pr_date - 3 ≤ x)) ∧
      (process_file_change path pr_date change_dates).changes_14_days =
        change_dates.countP (fun x => decide (pr_date - 14 ≤ x)) ∧
      (process_file_change path pr_date [pr_date - 3]).changes_3_days = 1 ∧
      (process_file_change path pr_date [pr_date - 14]).changes_14_days = 1 := by
  simp [process_file_change_eq, List.countP_cons]

/-- C10: the windowed counts are monotone in window size: every synthesized
test-feature record satisfies `failures_7_days ≤ failures_14_days ≤
failures_28_days`, and every synthesized file-feature record satisfies
`changes_3_days ≤ changes_14_days`. -/
theorem windowed_counts_monotone (test_run : TestRunInput) (path : String)
    (pr_date : Int) (failure_dates change_dates : List Int) :
    (process_test_run test_run pr_date failure_dates).failures_7_days ≤
        (process_test_run test_run pr_date failure_dates).failures_14_days ∧
      (process_test_run test_run pr_date failure_dates).failures_14_days ≤
        (process_test_run test_run pr_date failure_dates).failures_28_days ∧
      (process_file_change path pr_date change_dates).changes_3_days ≤
        (process_file_change path pr_date change_dates).changes_14_days := by
  refine ⟨?_, ?_, ?_⟩ <;>
    simp only [process_test_run_eq, process_file_change_eq] <;>
      refine List.countP_mono_left fun x _ h => ?_ <;>
        simp only [decide_eq_true_eq] at h ⊢ <;> omega

/-! ## Path Similarity Scorer -/

/-- The prefix-match count as the claim words it: scan indices `0` up to
`fuel` exclusive, counting matching component pairs at equal index and
stopping at the first mismatch. -/
def claimedPrefixMatches : Nat → List (List Char) → List (List Char) → Nat
  | 0, _, _ => 0
  | _ + 1, [], _ => 0
  | _ + 1, _ :: _, [] => 0
  | n + 1, a :: as, b :: bs =>
      if a = b then 1 + claimedPrefixMatches n as bs else 0

/-- The claim's formula for the single-path directory distance:
`len(parts_a) + len(parts_b)` minus 2 per matching common-prefix component,
scanning indices `0` up to `min(len_a, len_b) - 1` exclusive and stopping
at the first mismatch. -/
def claimed_directory_distance (a b : String) : Int :=
  let pa := pySplitSlash a
  let pb := pySplitSlash b
  (pa.length : Int) + pb.length -
    2 * claimedPrefixMatches (min pa.length pb.length - 1) pa pb

lemma splitCharsOn_ne_nil (p : Char → Bool) (l : List Char) :
    splitCharsOn p l ≠ [] := by
  cases l with
  | nil => simp [splitCharsOn]
  | cons c cs =>
    simp only [splitCharsOn]
    rcases h : splitCharsOn p cs with _ | ⟨r, rs⟩
    · simp
    · simp only [ne_eq]
      split <;> simp

lemma prefixCredit_eq_two_mul (n : Nat) (xs ys : List (List Char)) :
    prefixCredit n xs ys = 2 * (claimedPrefixMatches n xs ys : Int) := by
  induction n generalizing xs ys with
  | zero => simp [prefixCredit, claimedPrefixMatches]
  | succ n ih =>
    match xs, ys with
    | [], _ => simp [prefixCredit, claimedPrefixMatches]
    | _ :: _, [] => simp [prefixCredit, claimedPrefixMatches]
    | a :: as, b :: bs =>
      simp only [prefixCredit, claimedPrefixMatches]
      split
      · rw [ih]; push_cast; ring
      · simp

/-- The per-entry loop body agrees with the claim's formula on the split
paths of any two strings (both splits are non-empty, so the loop bound
`min(len_a - 1, len_b - 1)` equals the claim's `min(len_a, len_b) - 1`). -/
lemma distanceForPath_eq_claimed (p b : String) :
    distanceForPath (pySplitSlash p) (pySplitSlash b) =
      claimed_directory_distance p b := by
  have hp : 0 < (pySplitSlash p).length :=
    List.length_pos.mpr (splitCharsOn_ne_nil _ _)
  have hb : 0 < (pySplitSlash b).length :=
    List.length_pos.mpr (splitCharsOn_ne_nil _ _)
  have hmin :
      min ((pySplitSlash p).length - 1) ((pySplitSlash b).length - 1) =
        min (pySplitSlash p).length (pySplitSlash b).length - 1 := by
    omega
  rw [distanceForPath, claimed_directory_distance, hmin,
    prefixCredit_eq_two_mul]

set_option maxRecDepth 40000 in
/-- C6 counterexample: the claim's formula omits the cap at 1000 that the
initial `min_distance = 1000` imposes.  For a 999-slash path (1000 empty
components) against `"x"`, the code returns 1000 while the claimed formula
gives 1001. -/
theorem directory_distance_formula_counterexample :
    String.mk (List.replicate 999 '/') ≠ "" ∧
      "x" ≠ "" ∧
      calculate_minimal_distance (.str (String.mk (List.replicate 999 '/')))
        "x" = 1000 ∧
      claimed_directory_distance (String.mk (List.replicate 999 '/')) "x" =
        1001 := by
  refine ⟨by decide, by decide, ?_, ?_⟩ <;> decide

/-- C6 (amended): `calculate_minimal_distance` returns 1000 when either
input is falsy; on two non-empty single paths it returns the **minimum of
1000 and** the claimed formula (component-count sum minus 2 per
common-prefix match, the scan stopping at the first mismatch and never
reaching the final component of either path); on a collection of entries it
returns the minimum over all entries of the per-entry formula, again capped
at 1000; and the two concrete examples evaluate to 2. -/
theorem directory_distance_capped_formula (a b : String) (l : List String)
    (ha : a ≠ "") (hb : b ≠ "") :
    calculate_minimal_distance (.str a) b =
        min 1000 (claimed_directory_distance a b) ∧
      calculate_minimal_distance (.str "") b = 1000 ∧
      calculate_minimal_distance (.str a) "" = 1000 ∧
      calculate_minimal_distance (.entries l) b =
        (l.map (fun p => claimed_directory_distance p b)).foldl min 1000 ∧
      calculate_minimal_distance (.str "a/b/c.py") "a/b/test_c.py" = 2 ∧
      calculate_minimal_distance (.str "a") "a" = 2 := by
  refine ⟨?_, ?_, ?_, ?_, by decide, by decide⟩
  · simp [calculate_minimal_distance, ChangedFileInput.isFalsy, ha, hb,
      distanceForPath_eq_claimed, min_comm]
  · simp [calculate_minimal_distance, ChangedFileInput.isFalsy]
  · simp [calculate_minimal_distance, ChangedFileInput.isFalsy]
  · rcases l with _ | ⟨p, ps⟩
    · simp [calculate_minimal_distance, ChangedFileInput.isFalsy]
    · have hguard : (ChangedFileInput.entries (p :: ps)).isFalsy = false := by
        simp [ChangedFileInput.isFalsy]
      have hb' : (b == "") = false := by simpa using hb
      have hfun :
          (fun (acc : Int) (x : String) =>
              min acc (claimed_directory_distance x b)) =
            fun acc x =>
              min acc (distanceForPath (pySplitSlash x) (pySplitSlash b)) := by
        funext acc x
        rw [distanceForPath_eq_claimed]
      simp only [calculate_minimal_distance, hguard, hb', Bool.or_self,
        Bool.false_eq_true, if_false, List.foldl_map, hfun]

lemma prefixCredit_comm (n : Nat) (xs ys : List (List Char)) :
    prefixCredit n xs ys = prefixCredit n ys xs := by
  induction n generalizing xs ys with
  | zero => rfl
  | succ n ih =>
    match xs, ys with
    | [], [] => rfl
    | [], _ :: _ => rfl
    | _ :: _, [] => rfl
    | a :: as, b :: bs =>
      simp only [prefixCredit]
      by_cases h : a = b
      · simp [h, ih]
      · simp [h, Ne.symm h]

/-- C7: for every pair of non-empty single-path strings,
`calculate_minimal_distance` is symmetric: the component-count sum and the
prefix-match scan are both unchanged when the inputs are swapped. -/
theorem directory_distance_symmetric (a b : String) (ha : a ≠ "")
    (hb : b ≠ "") :
    calculate_minimal_distance (.str a) b =
      calculate_minimal_distance (.str b) a := by
  have hd :
      distanceForPath (pySplitSlash a) (pySplitSlash b) =
        distanceForPath (pySplitSlash b) (pySplitSlash a) := by
    rw [distanceForPath, distanceForPath, prefixCredit_comm,
      min_comm ((pySplitSlash a).length - 1)]
    omega
  simp [calculate_minimal_distance, ChangedFileInput.isFalsy, ha, hb, hd]

/-- C7 witness: both orderings of a concrete pair of paths agree. -/
theorem directory_distance_symmetric_witness :
    calculate_minimal_distance (.str "a/b/c.py") "x/y.py" =
      calculate_minimal_distance (.str "x/y.py") "a/b/c.py" :=
  directory_distance_symmetric "a/b/c.py" "x/y.py" (by decide) (by decide)

lemma tokensOf_empty : tokensOf "" = ∅ := rfl

/-- C8: `calculate_common_tokens` returns 0 when either input is empty,
equals the cardinality of the intersection of the two token sets (splitting
on `/` and `.`, empty tokens discarded), is symmetric, and evaluates to 2
on the spec's example. -/
theorem common_token_count_props (a b : String) :
    calculate_common_tokens a b = (tokensOf a ∩ tokensOf b).card ∧
      calculate_common_tokens "" b = 0 ∧
      calculate_common_tokens a "" = 0 ∧
      calculate_common_tokens a b = calculate_common_tokens b a ∧
      calculate_common_tokens "a/b/c.py" "a/b_c.py" = 2 := by
  have hmain : ∀ x y : String,
      calculate_common_tokens x y = (tokensOf x ∩ tokensOf y).card := by
    intro x y
    rw [calculate_common_tokens]
    split
    · rename_i h
      rcases Bool.or_eq_true_iff.mp h with h | h
      · rw [show x = "" from by simpa using h, tokensOf_empty]
        simp
      · rw [show y = "" from by simpa using h, tokensOf_empty]
        simp
    · rfl
  refine ⟨hmain a b, ?_, ?_, ?_, by decide⟩
  · simp [calculate_common_tokens]
  · simp [calculate_common_tokens]
  · rw [hmain a b, hmain b a, Finset.inter_comm]

/-- C6 witness: the amended formula instantiated at the spec's example. -/
theorem directory_distance_capped_formula_witness :
    calculate_minimal_distance (.str "a/b/c.py") "a/b/test_c.py" =
      min 1000 (claimed_directory_distance "a/b/c.py" "a/b/test_c.py") :=
  (directory_distance_capped_formula "a/b/c.py" "a/b/test_c.py" []
    (by decide) (by decide)).1

/-! ## Pair Expander -/

lemma flatMap_map_length {α β γ : Type} (l : List α) (m : List β)
    (g : α → β → γ) :
    (l.flatMap fun a => m.map (g a)).length = l.length * m.length := by
  induction l with
  | nil => simp
  | cons a l ih => simp [ih, Nat.succ_mul, Nat.add_comm]

/-- C3: for every PullRequest in the processing set with `M` test-run rows
and `N` file-change rows, the per-PR loop emits exactly `M * N` feature
rows; every emitted row carries `num_files_changed = N`, and its
`actual_result` label comes from its own paired test run's result
(0 for `"passed"`, 1 otherwise). -/
theorem pair_expander_cross_product (prs : List PRDetail)
    (fileRows : List FileChangedRow) (runRows : List TestRunRow)
    (pr : PRDetail) (_hpr : pr ∈ prs) :
    (rowsForPR prs fileRows runRows pr).length =
        (runRows.filter (fun r => r.pr_link == pr.pr_link)).length *
          (fileRows.filter (fun r => r.pr_link == pr.pr_link)).length ∧
      (∀ row ∈ rowsForPR prs fileRows runRows pr,
        row.num_files_changed =
          (fileRows.filter (fun r => r.pr_link == pr.pr_link)).length) ∧
      (∀ row ∈ rowsForPR prs fileRows runRows pr,
        ∃ tr ∈ runRows.filter (fun r => r.pr_link == pr.pr_link),
          row.test_case_file_path = tr.test_case_file_path ∧
            row.test_case_name = tr.test_case_name ∧
            row.actual_result =
              if tr.actual_result == "passed" then 0 else 1) := by
  refine ⟨?_, ?_, ?_⟩
  · simp only [rowsForPR]
    rw [flatMap_map_length]
    simp [List.length_map]
  · intro row hrow
    simp only [rowsForPR, List.mem_flatMap, List.mem_map] at hrow
    obtain ⟨t, -, f, -, rfl⟩ := hrow
    simp [mkFeatureRow]
  · intro row hrow
    simp only [rowsForPR, List.mem_flatMap, List.mem_map] at hrow
    obtain ⟨t, ⟨ti, ⟨tr, htr, rfl⟩, rfl⟩, f, -, rfl⟩ := hrow
    exact ⟨tr, htr, by simp [mkFeatureRow, process_test_run_eq]⟩

/-- C3 witness: a PullRequest with 2 test runs and 3 file changes yields
exactly 6 feature rows. -/
theorem pair_expander_cross_product_witness :
    (rowsForPR [⟨"L", "r", 0, []⟩]
        [⟨"L", "f1.py"⟩, ⟨"L", "f2.py"⟩, ⟨"L", "f3.py"⟩]
        [⟨"L", "t.py", "t1", "passed"⟩, ⟨"L", "t.py", "t2", "failed"⟩]
        ⟨"L", "r", 0, []⟩).length = 6 := by
  have h :=
    (pair_expander_cross_product [⟨"L", "r", 0, []⟩]
      [⟨"L", "f1.py"⟩, ⟨"L", "f2.py"⟩, ⟨"L", "f3.py"⟩]
      [⟨"L", "t.py", "t1", "passed"⟩, ⟨"L", "t.py", "t2", "failed"⟩]
      ⟨"L", "r", 0, []⟩ (by simp)).1
  rw [h]
  decide

/-! ## Checkpoint Resolver -/

/-- `main`'s per-repo wiring of the checkpoint into the PR fetch. -/
def mainFetchedPRs (prTable : List PRDetail) (ckptTable : List CheckpointRow)
    (repo_name : String) : List PRDetail :=
  fetchPullRequests prTable repo_name (latest_checkpoint ckptTable repo_name)

/-- C4: with a recorded checkpoint, the fetch bound is exactly the maximum
checkpoint date minus 28 days; a PullRequest dated strictly before that
bound is excluded from the reprocessed set and one dated on or after it
(with the right repo) is included; with no checkpoint the fetch has no date
bound. -/
theorem checkpoint_resolver_start_date (prTable : List PRDetail)
    (ckptTable ckptNone : List CheckpointRow) (repo : String) (cd : Int)
    (pr pr2 : PRDetail)
    (hcd : latest_checkpoint ckptTable repo = some cd)
    (hnone : latest_checkpoint ckptNone repo = none) :
    startDate cd = cd - 28 ∧
      mainFetchedPRs prTable ckptTable repo =
        fetchPullRequests prTable repo (some cd) ∧
      (pr.date_of_pr < startDate cd →
        pr ∉ mainFetchedPRs prTable ckptTable repo) ∧
      (pr ∈ prTable → pr.repo_name = repo → startDate cd ≤ pr.date_of_pr →
        pr ∈ mainFetchedPRs prTable ckptTable repo) ∧
      (pr2 ∈ prTable → pr2.repo_name = repo →
        pr2 ∈ mainFetchedPRs prTable ckptNone repo) := by
  refine ⟨rfl, ?_, ?_, ?_, ?_⟩
  · rw [mainFetchedPRs, hcd]
  · intro hlt hmem
    rw [mainFetchedPRs, hcd] at hmem
    simp only [fetchPullRequests, List.mem_filter, Bool.and_eq_true,
      decide_eq_true_eq] at hmem
    omega
  · intro hmem hrepo hge
    rw [mainFetchedPRs, hcd]
    simp only [fetchPullRequests, List.mem_filter, Bool.and_eq_true,
      decide_eq_true_eq]
    exact ⟨hmem, by simp [hrepo], hge⟩
  · intro hmem hrepo
    rw [mainFetchedPRs, hnone]
    simp only [fetchPullRequests, List.mem_filter]
    exact ⟨hmem, by simp [hrepo]⟩

/-- C4 witness: with checkpoint date 100, the bound is 72; a PR dated 80 is
reprocessed and a PR dated 50 is not; without a checkpoint a PR dated 50 is
fetched. -/
theorem checkpoint_resolver_start_date_witness :
    (⟨"L2", "r", 50, []⟩ : PRDetail) ∉
        mainFetchedPRs [⟨"L1", "r", 80, []⟩, ⟨"L2", "r", 50, []⟩]
          [⟨"r", 100⟩] "r" ∧
      (⟨"L1", "r", 80, []⟩ : PRDetail) ∈
        mainFetchedPRs [⟨"L1", "r", 80, []⟩, ⟨"L2", "r", 50, []⟩]
          [⟨"r", 100⟩] "r" ∧
      (⟨"L2", "r", 50, []⟩ : PRDetail) ∈
        mainFetchedPRs [⟨"L1", "r", 80, []⟩, ⟨"L2", "r", 50, []⟩] [] "r" := by
  have h :=
    checkpoint_resolver_start_date
      [⟨"L1", "r", 80, []⟩, ⟨"L2", "r", 50, []⟩] [⟨"r", 100⟩] [] "r" 100
      ⟨"L1", "r", 80, []⟩ ⟨"L2", "r", 50, []⟩ (by decide) (by decide)
  have h' :=
    checkpoint_resolver_start_date
      [⟨"L1", "r", 80, []⟩, ⟨"L2", "r", 50, []⟩] [⟨"r", 100⟩] [] "r" 100
      ⟨"L2", "r", 50, []⟩ ⟨"L2", "r", 50, []⟩ (by decide) (by decide)
  refine ⟨?_, ?_, ?_⟩
  · exact h'.2.2.1 (by rw [h'.1]; decide)
  · exact h.2.2.2.1 (by decide) rfl (by rw [h.1]; decide)
  · exact h.2.2.2.2 (by decide) rfl

/-! ## Dataset Assembler and trainer handoff -/

/-- C5: the code contradicts the claim.  For a repository whose PR set is
non-empty but whose processing pass accumulates zero feature rows (here one
PR with a test run and no file changes), no CSV is written, yet
`process_data_for_repo` still returns the dataset path instead of a
"no data" signal, so `main` invokes the trainer for that repository. -/
theorem empty_pair_set_still_returns_path :
    feature_data [⟨"L", "repo", 0, []⟩] [] [⟨"L", "t.py", "n", "passed"⟩] =
        [] ∧
      process_data_for_repo "repo" "ts" [⟨"L", "repo", 0, []⟩] []
          [⟨"L", "t.py", "n", "passed"⟩] =
        ⟨some "csv/repo_ts.csv", none⟩ ∧
      trainer_invoked
          (process_data_for_repo "repo" "ts" [⟨"L", "repo", 0, []⟩] []
            [⟨"L", "t.py", "n", "passed"⟩]) =
        true := by
  refine ⟨by decide, by decide, by decide⟩

/-- C9: whenever the repo pass writes a dataset, the written artifact has a
header row whose columns are exactly the sixteen feature names in their
stable order. -/
theorem dataset_columns (repo ts : String) (prs : List PRDetail)
    (fileRows : List FileChangedRow) (runRows : List TestRunRow)
    (hdr : List String) (body : List (List CellValue))
    (h : (process_data_for_repo repo ts prs fileRows runRows).written =
      some (hdr, body)) :
    hdr =
      ["test_case_file_path", "test_case_name", "actual_result",
        "failures_7_days", "failures_14_days", "failures_28_days",
        "file_name", "file_extension", "changes_3_days", "changes_14_days",
        "distinct_author", "common_tokens", "minimal_distance",
        "num_files_changed", "date_of_pr", "pr_link"] := by
  rw [process_data_for_repo] at h
  split at h
  · simp at h
  · rcases hfd : feature_data prs fileRows runRows with _ | ⟨r, rest⟩ <;>
      rw [hfd] at h
    · simp [writtenCsv] at h
    · simp only [writtenCsv, Option.some.injEq, Prod.mk.injEq] at h
      rw [← h.1]
      simp [FeatureRow.toPairs]

/-- C9 witness: a concrete one-row pass writes the header and the row. -/
theorem dataset_columns_witness :
    (process_data_for_repo "r" "ts" [⟨"L", "r", 0, ["au"]⟩]
          [⟨"L", "a/b.py"⟩] [⟨"L", "a/t.py", "n", "failed"⟩]).written =
        some
          (["test_case_file_path", "test_case_name", "actual_result",
            "failures_7_days", "failures_14_days", "failures_28_days",
            "file_name", "file_extension", "changes_3_days",
            "changes_14_days", "distinct_author", "common_tokens",
            "minimal_distance", "num_files_changed", "date_of_pr",
            "pr_link"],
          [[.str "a/t.py", .str "n", .nat 1, .nat 1, .nat 1, .nat 1,
            .str "a/b", .str "py", .nat 1, .nat 1, .nat 1, .nat 1, .int 2,
            .nat 1, .int 0, .str "L"]]) ∧
      ["test_case_file_path", "test_case_name", "actual_result",
          "failures_7_days", "failures_14_days", "failures_28_days",
          "file_name", "file_extension", "changes_3_days", "changes_14_days",
          "distinct_author", "common_tokens", "minimal_distance",
          "num_files_changed", "date_of_pr", "pr_link"] =
        ["test_case_file_path", "test_case_name", "actual_result",
          "failures_7_days", "failures_14_days", "failures_28_days",
          "file_name", "file_extension", "changes_3_days", "changes_14_days",
          "distinct_author", "common_tokens", "minimal_distance",
          "num_files_changed", "date_of_pr", "pr_link"] :=
  ⟨by decide,
    dataset_columns "r" "ts" [⟨"L", "r", 0, ["au"]⟩] [⟨"L", "a/b.py"⟩]
      [⟨"L", "a/t.py", "n", "failed"⟩]
      ["test_case_file_path", "test_case_name", "actual_result",
        "failures_7_days", "failures_14_days", "failures_28_days",
        "file_name", "file_extension", "changes_3_days", "changes_14_days",
        "distinct_author", "common_tokens", "minimal_distance",
        "num_files_changed", "date_of_pr", "pr_link"]
      [[.str "a/t.py", .str "n", .nat 1, .nat 1, .nat 1, .nat 1, .str "a/b",
        .str "py", .nat 1, .nat 1, .nat 1, .nat 1, .int 2, .nat 1, .int 0,
        .str "L"]]
      (by decide)⟩

end TestSelection
